import Mathlib

/-!
Verification of the rule-registration layer of the `class-validator` fork.

The repository source under study is `src/decorator/decorators.ts`: the
rule-attachment operations (decorators) that, applied to a pair
(object, propertyName), build a `ValidationMetadataArgs` record and append a
`ValidationMetadata` (the spec's Rule Descriptor) to the process-wide
`MetadataStorage` (the spec's Registry), plus `ValidatorConstraint`, which
registers a custom constraint class as a `ConstraintMetadata`.

The metadata/storage classes themselves (`ValidationMetadata`,
`ConstraintMetadata`, `MetadataStorage`, `ValidationTypes`,
`ValidationOptions`) are imported by the decorators but are not part of the
excerpted source; they are modelled from the spec, as marked on each
definition.

TypeScript type annotations are erased at runtime and the decorator bodies
perform no runtime checks on their rule parameters, so rule parameters are
modelled by the universe `JSValue` of runtime values; the uniform trailing
`validationOptions` argument keeps its declared structural type.
-/

namespace ClassValidator

/-- Modelled from the spec: `decorator/ValidationOptions.ts` is not in the
excerpted source. The spec's Execution Options structure with recognized
fields message, groups, each, always, context (context is an opaque
pass-through payload, modelled by an identifier). -/
structure ValidationOptions where
  message : Option String := none
  groups : Option (List String) := none
  each : Option Bool := none
  always : Option Bool := none
  context : Option Nat := none
deriving DecidableEq

/-- Universe of JavaScript runtime values, as far as the registration layer
can observe them: primitives, and reference values (arrays, plain objects,
regular expressions, dates, function/class references) identified by an
opaque id — the registration layer never inspects a reference value, it
only stores it. `opts` is a validation-options object. -/
inductive JSValue where
  | undefined
  | nullv
  | boolean (b : Bool)
  | num (n : Int)
  | str (s : String)
  | func (id : Nat)
  | obj (id : Nat)
  | opts (o : ValidationOptions)
deriving DecidableEq

/-- The declared type `string | ValidationOptions` of `IsMatch`'s optional
second parameter (absent = `undefined`). -/
inductive StrOrOptions where
  | undefined
  | str (s : String)
  | opts (o : ValidationOptions)
deriving DecidableEq

/-- JavaScript truthiness on a `StrOrOptions` value: `undefined` and the
empty string are falsy, non-empty strings and objects are truthy. -/
def StrOrOptions.truthy : StrOrOptions → Bool
  | .undefined => false
  | .str s => !(s == "")
  | .opts _ => true

/-- The JavaScript test `x instanceof Object`: true exactly on
(non-null) object values; primitive strings and `undefined` are not
instances of `Object`. -/
def StrOrOptions.instanceofObject : StrOrOptions → Bool
  | .undefined => false
  | .str _ => false
  | .opts _ => true

/-- The value-preserving TypeScript cast `x as string`: a type assertion
only, the runtime value is unchanged. -/
def StrOrOptions.toJSValue : StrOrOptions → JSValue
  | .undefined => .undefined
  | .str s => .str s
  | .opts o => .opts o

/-- Modelled from the spec: `validation/ValidationTypes.ts` is not in the
excerpted source. One constant per rule kind referenced by the embedded
rule-attachment operations (the spec's `kind` enum: equality, range,
format, custom, nested, ...). -/
inductive ValidationTypes where
  | CUSTOM_VALIDATION
  | NESTED_VALIDATION
  | IS_EQUAL
  | IS_NOT_EQUAL
  | IS_EMPTY
  | IS_IN
  | IS_BYTE_LENGTH
  | IS_LENGTH
  | IS_MIN_SIZE
  | IS_MATCH
deriving DecidableEq

/-- A JavaScript object as the decorators observe it: the only operation the
decorator bodies perform on `object` is reading `object.constructor`, the
runtime constructor (class) identity, modelled by an opaque id. -/
structure JSObject where
  constructor : Nat
deriving DecidableEq

/-- The argument record each decorator builds and passes to
`new ValidationMetadata(args)`. Fields not mentioned in an object literal
are `undefined`. -/
structure ValidationMetadataArgs where
  type : ValidationTypes
  target : Nat
  propertyName : String
  value1 : JSValue := .undefined
  value2 : JSValue := .undefined
  validationOptions : Option ValidationOptions := none
deriving DecidableEq

/-- Modelled from the spec: `metadata/ValidationMetadata.ts` is not in the
excerpted source. The spec's Rule Descriptor — kind (`type`), owner type
(`target`), field name (`propertyName`), rule parameters (`value1`,
`value2`) and execution options — immutable once created. -/
structure ValidationMetadata where
  type : ValidationTypes
  target : Nat
  propertyName : String
  value1 : JSValue
  value2 : JSValue
  validationOptions : Option ValidationOptions
deriving DecidableEq

/-- Modelled from the spec: the `ValidationMetadata` constructor copies the
argument record's descriptor data field for field. -/
def ValidationMetadata.ofArgs (args : ValidationMetadataArgs) : ValidationMetadata :=
  { type := args.type
    target := args.target
    propertyName := args.propertyName
    value1 := args.value1
    value2 := args.value2
    validationOptions := args.validationOptions }

/-- Modelled from the spec: `metadata/ConstraintMetadata.ts` is not in the
excerpted source. A Constraint Catalog entry binding a custom constraint
class (`target`, a function reference) to an optional registered name
(`new ConstraintMetadata(target, name)` with `name?: string`). -/
structure ConstraintMetadata where
  target : Nat
  name : Option String
deriving DecidableEq

/-- Configuration faults of the registration phase (spec section 7). -/
inductive RegistryError where
  | DuplicateConstraintName (name : String)
deriving DecidableEq

/-- Modelled from the spec: `metadata/MetadataStorage.ts` is not in the
excerpted source. The Registry — an ordered sequence of Rule Descriptors
plus the registered Constraint Catalog entries. -/
structure MetadataStorage where
  validationMetadatas : List ValidationMetadata
  constraintMetadatas : List ConstraintMetadata
deriving DecidableEq

/-- Modelled from the spec: `register(descriptor)` appends to the sequence;
never rejects, never deduplicates. -/
def MetadataStorage.addValidationMetadata (s : MetadataStorage)
    (m : ValidationMetadata) : MetadataStorage :=
  { s with validationMetadatas := s.validationMetadatas ++ [m] }

/-- Tests whether a constraint name is already bound in the catalog. -/
def MetadataStorage.nameBound (s : MetadataStorage) (n : String) : Bool :=
  s.constraintMetadatas.any fun c => c.name == some n

/-- Modelled from the spec: `registerCustomConstraint(name, evaluator)`
fails with a `DuplicateConstraintName` error if `name` is already bound,
unless the registration explicitly allows override (override replaces the
existing binding; otherwise the first registration wins). A registration
without a name has nothing to collide with and is appended. -/
def MetadataStorage.addConstraintMetadata (s : MetadataStorage)
    (m : ConstraintMetadata) (allowOverride : Bool) :
    Except RegistryError MetadataStorage :=
  match m.name with
  | none => .ok { s with constraintMetadatas := s.constraintMetadatas ++ [m] }
  | some n =>
    if s.nameBound n then
      if allowOverride then
        .ok { s with constraintMetadatas :=
                s.constraintMetadatas.map fun c => if c.name == some n then m else c }
      else
        .error (.DuplicateConstraintName n)
    else
      .ok { s with constraintMetadatas := s.constraintMetadatas ++ [m] }

/-!
The rule-attachment operations of `src/decorator/decorators.ts`. Each
TypeScript decorator factory takes the rule's parameters plus an optional
trailing `validationOptions` and returns a decorator
`function (object, propertyName)` whose body builds a
`ValidationMetadataArgs` record and appends
`new ValidationMetadata(args)` to the `MetadataStorage` container
(`getFromContainer(MetadataStorage)` is the process-wide storage, modelled
by explicit state passing). Rule parameters carry erased TypeScript types
and are stored without any runtime check, hence `JSValue`.
-/

/-- Decorator `ValidatorConstraint(name?)`: registers a custom validator class
(`function(target: Function)`) as a `ConstraintMetadata`. The storage's
duplicate handling is spec-modelled in `addConstraintMetadata`; the
decorator itself requests no override. -/
def ValidatorConstraint (name : Option String) :
    Nat → MetadataStorage → Except RegistryError MetadataStorage :=
  fun target storage =>
    storage.addConstraintMetadata { target := target, name := name } false

/-- Decorator `Validate(constraintClass, validationOptions?)`: performs validation
based on the given custom validation class; kind `CUSTOM_VALIDATION`,
`value1` is the constraint class reference. -/
def Validate (constraintClass : JSValue) (validationOptions : Option ValidationOptions) :
    JSObject → String → MetadataStorage → MetadataStorage :=
  fun object propertyName storage =>
    storage.addValidationMetadata (ValidationMetadata.ofArgs
      { type := ValidationTypes.CUSTOM_VALIDATION
        target := object.constructor
        propertyName := propertyName
        value1 := constraintClass
        validationOptions := validationOptions })

/-- Decorator `NestedValidation(validationOptions?)`: marks objects / object arrays
for recursive validation; kind `NESTED_VALIDATION`, no rule parameters. -/
def NestedValidation (validationOptions : Option ValidationOptions) :
    JSObject → String → MetadataStorage → MetadataStorage :=
  fun object propertyName storage =>
    storage.addValidationMetadata (ValidationMetadata.ofArgs
      { type := ValidationTypes.NESTED_VALIDATION
        target := object.constructor
        propertyName := propertyName
        validationOptions := validationOptions })

/-- Decorator `IsEqual(comparison, validationOptions?)`: value must strictly equal
the comparison. -/
def IsEqual (comparison : JSValue) (validationOptions : Option ValidationOptions) :
    JSObject → String → MetadataStorage → MetadataStorage :=
  fun object propertyName storage =>
    storage.addValidationMetadata (ValidationMetadata.ofArgs
      { type := ValidationTypes.IS_EQUAL
        target := object.constructor
        propertyName := propertyName
        value1 := comparison
        validationOptions := validationOptions })

/-- Decorator `IsNotEqual(comparison, validationOptions?)`. -/
def IsNotEqual (comparison : JSValue) (validationOptions : Option ValidationOptions) :
    JSObject → String → MetadataStorage → MetadataStorage :=
  fun object propertyName storage =>
    storage.addValidationMetadata (ValidationMetadata.ofArgs
      { type := ValidationTypes.IS_NOT_EQUAL
        target := object.constructor
        propertyName := propertyName
        value1 := comparison
        validationOptions := validationOptions })

/-- Decorator `IsEmpty(validationOptions?)`: no rule parameters. -/
def IsEmpty (validationOptions : Option ValidationOptions) :
    JSObject → String → MetadataStorage → MetadataStorage :=
  fun object propertyName storage =>
    storage.addValidationMetadata (ValidationMetadata.ofArgs
      { type := ValidationTypes.IS_EMPTY
        target := object.constructor
        propertyName := propertyName
        validationOptions := validationOptions })

/-- Decorator `IsIn(values, validationOptions?)`: `values` is an array reference,
stored verbatim in `value1`. -/
def IsIn (values : JSValue) (validationOptions : Option ValidationOptions) :
    JSObject → String → MetadataStorage → MetadataStorage :=
  fun object propertyName storage =>
    storage.addValidationMetadata (ValidationMetadata.ofArgs
      { type := ValidationTypes.IS_IN
        target := object.constructor
        propertyName := propertyName
        value1 := values
        validationOptions := validationOptions })

/-- Decorator `IsByteLength(min, max?, validationOptions?)`: two rule parameters
stored in `value1`/`value2` (an absent `max` is `undefined`). -/
def IsByteLength (min max : JSValue) (validationOptions : Option ValidationOptions) :
    JSObject → String → MetadataStorage → MetadataStorage :=
  fun object propertyName storage =>
    storage.addValidationMetadata (ValidationMetadata.ofArgs
      { type := ValidationTypes.IS_BYTE_LENGTH
        target := object.constructor
        propertyName := propertyName
        value1 := min
        value2 := max
        validationOptions := validationOptions })

/-- Decorator `IsLength(min, max?, validationOptions?)`. -/
def IsLength (min max : JSValue) (validationOptions : Option ValidationOptions) :
    JSObject → String → MetadataStorage → MetadataStorage :=
  fun object propertyName storage =>
    storage.addValidationMetadata (ValidationMetadata.ofArgs
      { type := ValidationTypes.IS_LENGTH
        target := object.constructor
        propertyName := propertyName
        value1 := min
        value2 := max
        validationOptions := validationOptions })

/-- Decorator `IsMinSize(min, validationOptions?)`. -/
def IsMinSize (min : JSValue) (validationOptions : Option ValidationOptions) :
    JSObject → String → MetadataStorage → MetadataStorage :=
  fun object propertyName storage =>
    storage.addValidationMetadata (ValidationMetadata.ofArgs
      { type := ValidationTypes.IS_MIN_SIZE
        target := object.constructor
        propertyName := propertyName
        value1 := min
        validationOptions := validationOptions })

/-- Decorator `IsMatch(pattern, modifiersOrAnnotationOptions?, validationOptions?)`:
the overloaded second argument is disambiguated at runtime — if it is
truthy, an `instanceof Object`, and no third argument was given, it is the
validation options and `modifiers` stays `undefined`; otherwise it is cast
(`as string`) to the `modifiers` value. -/
def IsMatch (pattern : JSValue) (modifiersOrAnnotationOptions : StrOrOptions)
    (validationOptions : Option ValidationOptions) :
    JSObject → String → MetadataStorage → MetadataStorage :=
  let resolved :=
    if modifiersOrAnnotationOptions.truthy &&
        modifiersOrAnnotationOptions.instanceofObject &&
        validationOptions.isNone then
      (JSValue.undefined,
        match modifiersOrAnnotationOptions with
        | .opts o => some o
        | .str _ => validationOptions
        | .undefined => validationOptions)
    else
      (modifiersOrAnnotationOptions.toJSValue, validationOptions)
  fun object propertyName storage =>
    storage.addValidationMetadata (ValidationMetadata.ofArgs
      { type := ValidationTypes.IS_MATCH
        target := object.constructor
        propertyName := propertyName
        value1 := pattern
        value2 := resolved.1
        validationOptions := resolved.2 })

/-!
Quantification apparatus for the claims that range over "every
rule-attachment operation": `AttachmentCall` enumerates one application of
each embedded operation with its parameters, `applyCall` dispatches to the
operation, and `descriptorOf` gives the Rule Descriptor that application
registers. `AttachmentCall.kind`, `.param1`, `.param2` and `.callerOptions`
read off, from the call alone, the kind constant, the rule parameters and
the options structure the call site supplied (for `IsMatch`, following its
declared overloads: a lone trailing options object is the options argument,
not a modifiers parameter).
-/

/-- One application of an embedded rule-attachment operation, with the
arguments of that application. -/
inductive AttachmentCall where
  | validate (constraintClass : JSValue) (validationOptions : Option ValidationOptions)
  | nestedValidation (validationOptions : Option ValidationOptions)
  | isEqual (comparison : JSValue) (validationOptions : Option ValidationOptions)
  | isNotEqual (comparison : JSValue) (validationOptions : Option ValidationOptions)
  | isEmpty (validationOptions : Option ValidationOptions)
  | isIn (values : JSValue) (validationOptions : Option ValidationOptions)
  | isByteLength (min max : JSValue) (validationOptions : Option ValidationOptions)
  | isLength (min max : JSValue) (validationOptions : Option ValidationOptions)
  | isMinSize (min : JSValue) (validationOptions : Option ValidationOptions)
  | isMatch (pattern : JSValue) (modifiersOrAnnotationOptions : StrOrOptions)
      (validationOptions : Option ValidationOptions)
deriving DecidableEq

/-- Dispatches an attachment call to the embedded operation. -/
def applyCall : AttachmentCall → JSObject → String → MetadataStorage → MetadataStorage
  | .validate c o => Validate c o
  | .nestedValidation o => NestedValidation o
  | .isEqual c o => IsEqual c o
  | .isNotEqual c o => IsNotEqual c o
  | .isEmpty o => IsEmpty o
  | .isIn v o => IsIn v o
  | .isByteLength mn mx o => IsByteLength mn mx o
  | .isLength mn mx o => IsLength mn mx o
  | .isMinSize mn o => IsMinSize mn o
  | .isMatch p m o => IsMatch p m o

/-- The `ValidationTypes` constant specific to each operation. -/
def AttachmentCall.kind : AttachmentCall → ValidationTypes
  | .validate _ _ => .CUSTOM_VALIDATION
  | .nestedValidation _ => .NESTED_VALIDATION
  | .isEqual _ _ => .IS_EQUAL
  | .isNotEqual _ _ => .IS_NOT_EQUAL
  | .isEmpty _ => .IS_EMPTY
  | .isIn _ _ => .IS_IN
  | .isByteLength _ _ _ => .IS_BYTE_LENGTH
  | .isLength _ _ _ => .IS_LENGTH
  | .isMinSize _ _ => .IS_MIN_SIZE
  | .isMatch _ _ _ => .IS_MATCH

/-- The first rule parameter the call site supplied (`undefined` for
operations that take none). -/
def AttachmentCall.param1 : AttachmentCall → JSValue
  | .validate c _ => c
  | .nestedValidation _ => .undefined
  | .isEqual c _ => c
  | .isNotEqual c _ => c
  | .isEmpty _ => .undefined
  | .isIn v _ => v
  | .isByteLength mn _ _ => mn
  | .isLength mn _ _ => mn
  | .isMinSize mn _ => mn
  | .isMatch p _ _ => p

/-- The second rule parameter the call site supplied. For `IsMatch`, per
its declared overloads, a lone trailing options object occupies the
options argument, so no modifiers parameter was supplied in that shape. -/
def AttachmentCall.param2 : AttachmentCall → JSValue
  | .validate _ _ => .undefined
  | .nestedValidation _ => .undefined
  | .isEqual _ _ => .undefined
  | .isNotEqual _ _ => .undefined
  | .isEmpty _ => .undefined
  | .isIn _ _ => .undefined
  | .isByteLength _ mx _ => mx
  | .isLength _ mx _ => mx
  | .isMinSize _ _ => .undefined
  | .isMatch _ (.opts _) none => .undefined
  | .isMatch _ (.opts o) (some _) => .opts o
  | .isMatch _ (.str m) _ => .str m
  | .isMatch _ .undefined _ => .undefined

/-- The options structure the call site supplied as its trailing argument
(for `IsMatch`'s one-options-object shape, that trailing argument is the
second one). -/
def AttachmentCall.callerOptions : AttachmentCall → Option ValidationOptions
  | .validate _ o => o
  | .nestedValidation o => o
  | .isEqual _ o => o
  | .isNotEqual _ o => o
  | .isEmpty o => o
  | .isIn _ o => o
  | .isByteLength _ _ o => o
  | .isLength _ _ o => o
  | .isMinSize _ o => o
  | .isMatch _ (.opts o) none => some o
  | .isMatch _ (.opts _) (some v) => some v
  | .isMatch _ (.str _) o => o
  | .isMatch _ .undefined o => o

/-- The Rule Descriptor a call registers: owner type is the decorated
object's runtime constructor, field name is the decorated property, kind,
parameters and options are the call's (`applyCall_eq` proves this is
exactly what each operation appends). -/
def descriptorOf (c : AttachmentCall) (object : JSObject) (propertyName : String) :
    ValidationMetadata :=
  { type := c.kind
    target := object.constructor
    propertyName := propertyName
    value1 := c.param1
    value2 := c.param2
    validationOptions := c.callerOptions }

/-- A whole registration phase: the attachment calls applied in order,
each to its decorated object and property. -/
def applyCalls : List (AttachmentCall × JSObject × String) → MetadataStorage → MetadataStorage
  | [], s => s
  | (c, object, propertyName) :: rest, s =>
      applyCalls rest (applyCall c object propertyName s)

theorem isMatch_cond_str (m : String) (t : Option ValidationOptions) :
    ((StrOrOptions.str m).truthy && (StrOrOptions.str m).instanceofObject &&
      t.isNone) = false := by
  simp [StrOrOptions.instanceofObject]

/-- Each attachment call appends exactly `descriptorOf` to the validation
metadata sequence and touches nothing else in the storage. -/
theorem applyCall_eq (c : AttachmentCall) (object : JSObject)
    (propertyName : String) (s : MetadataStorage) :
    applyCall c object propertyName s =
      { s with validationMetadatas :=
          s.validationMetadatas ++ [descriptorOf c object propertyName] } := by
  cases c with
  | isMatch p m t =>
    cases m with
    | undefined => cases t <;> rfl
    | str mstr =>
      show IsMatch p (.str mstr) t object propertyName s = _
      rw [IsMatch]
      rw [isMatch_cond_str]
      cases t <;> rfl
    | opts o => cases t <;> rfl
  | _ => rfl

/-!
Concrete fixtures used by witness and counterexample theorems.
-/

/-- A registry state holding one custom constraint registered under the
name "isEven" for the constraint class with identity 7 (the state produced
by `ValidatorConstraint (some "isEven")` on class 7 from empty storage). -/
def customStorage : MetadataStorage :=
  { validationMetadatas := []
    constraintMetadatas := [{ target := 7, name := some "isEven" }] }

/-- The descriptor `Validate` registers for constraint class 7 on property
"age" of an object whose constructor has identity 3. -/
def c5Descriptor : ValidationMetadata :=
  { type := .CUSTOM_VALIDATION
    target := 3
    propertyName := "age"
    value1 := .func 7
    value2 := .undefined
    validationOptions := none }

/-!
The claims.
-/

/-- Claim C1: every embedded rule-attachment operation, applied to a pair
(object, propertyName), appends to the registry a Rule Descriptor whose
owner type (`target`) is the object's runtime constructor, whose field
name (`propertyName`) is the given property name, and whose kind (`type`)
is the `ValidationTypes` constant specific to that operation. -/
theorem C1_descriptor_keys_and_kind (c : AttachmentCall) (object : JSObject)
    (propertyName : String) (s : MetadataStorage) :
    (applyCall c object propertyName s).validationMetadatas =
      s.validationMetadatas ++ [descriptorOf c object propertyName] ∧
    (descriptorOf c object propertyName).target = object.constructor ∧
    (descriptorOf c object propertyName).propertyName = propertyName ∧
    (descriptorOf c object propertyName).type = c.kind := by
  refine ⟨?_, rfl, rfl, rfl⟩
  rw [applyCall_eq]

/-- Claim C2: a sequence of rule-attachment applications appends its
descriptors in exactly application order, each application contributing
exactly one descriptor; every previously registered descriptor (and the
constraint catalog) is left untouched — the prior registry contents remain
verbatim as a prefix. -/
theorem C2_append_only_in_order
    (cs : List (AttachmentCall × JSObject × String)) (s : MetadataStorage) :
    (applyCalls cs s).validationMetadatas =
      s.validationMetadatas ++ cs.map (fun t => descriptorOf t.1 t.2.1 t.2.2) ∧
    (applyCalls cs s).constraintMetadatas = s.constraintMetadatas := by
  induction cs generalizing s with
  | nil => simp [applyCalls]
  | cons hd tl ih =>
    obtain ⟨c, object, propertyName⟩ := hd
    rw [applyCalls, applyCall_eq]
    have h := ih { s with validationMetadatas :=
                    s.validationMetadatas ++ [descriptorOf c object propertyName] }
    refine ⟨?_, h.2⟩
    rw [h.1]
    simp

/-- Claim C3: registration never rejects and never deduplicates — two
attachment applications on the same owner object and field (the same
operation with the same or different parameters included) yield two
descriptors, both present, in application order. -/
theorem C3_duplicates_both_registered (c c2 : AttachmentCall) (object : JSObject)
    (propertyName : String) (s : MetadataStorage) :
    (applyCall c2 object propertyName
        (applyCall c object propertyName s)).validationMetadatas =
      s.validationMetadatas ++
        [descriptorOf c object propertyName,
         descriptorOf c2 object propertyName] := by
  rw [applyCall_eq, applyCall_eq]
  simp

/-- Claim C4: registering a custom constraint under an already-bound name
fails with a DuplicateConstraintName error unless override is explicitly
requested (override replaces the binding); with a fresh name the entry is
appended. Erroring leaves the storage unchanged, so without override the
first registration wins. -/
theorem C4_duplicate_constraint_name (s : MetadataStorage)
    (m : ConstraintMetadata) (n : String) (hname : m.name = some n) :
    (s.nameBound n = true →
      s.addConstraintMetadata m false = .error (.DuplicateConstraintName n) ∧
      s.addConstraintMetadata m true =
        .ok { s with constraintMetadatas :=
                s.constraintMetadatas.map fun c =>
                  if c.name == some n then m else c }) ∧
    (s.nameBound n = false →
      s.addConstraintMetadata m false =
        .ok { s with constraintMetadatas := s.constraintMetadatas ++ [m] }) := by
  constructor
  · intro hb
    constructor <;> simp [MetadataStorage.addConstraintMetadata, hname, hb]
  · intro hb
    simp [MetadataStorage.addConstraintMetadata, hname, hb]

/-- Witness for claim C4 at a concrete registry: with "isEven" already
bound in `customStorage`, re-registering the name without override errors,
and registering the fresh name "other" succeeds by appending. -/
theorem C4_duplicate_constraint_name_witness :
    customStorage.addConstraintMetadata { target := 9, name := some "isEven" } false =
      .error (.DuplicateConstraintName "isEven") ∧
    customStorage.addConstraintMetadata { target := 9, name := some "other" } false =
      .ok { customStorage with constraintMetadatas :=
              customStorage.constraintMetadatas ++ [{ target := 9, name := some "other" }] } := by
  have h1 := C4_duplicate_constraint_name customStorage
    { target := 9, name := some "isEven" } "isEven" rfl
  have h2 := C4_duplicate_constraint_name customStorage
    { target := 9, name := some "other" } "other" rfl
  exact ⟨(h1.1 (by decide)).1, h2.2 (by decide)⟩

/-- Claim C5 counterexample: register the constraint class with identity 7
under the name "isEven", then attach it with `Validate` to property "age"
of an object of constructor 3. The descriptor of kind CUSTOM_VALIDATION
that results carries the constraint class reference in `value1` — no slot
of the descriptor carries the registered name "isEven". -/
theorem C5_counterexample :
    ValidatorConstraint (some "isEven") 7
        { validationMetadatas := [], constraintMetadatas := [] } =
      .ok customStorage ∧
    (Validate (.func 7) none { constructor := 3 } "age" customStorage).validationMetadatas =
      [c5Descriptor] ∧
    ¬(c5Descriptor.value1 = .str "isEven" ∨ c5Descriptor.value2 = .str "isEven") := by
  refine ⟨rfl, rfl, ?_⟩
  decide

/-- Claim C5 (amended): every Rule Descriptor of kind CUSTOM_VALIDATION
created by the attachment operation carries the caller-supplied constraint
class reference (in `value1`; the registered constraint name lives in the
separate `ConstraintMetadata` entry keyed by that class) plus the
caller-supplied validation options. -/
theorem C5_custom_descriptor_payload (constraintClass : JSValue)
    (validationOptions : Option ValidationOptions) (object : JSObject)
    (propertyName : String) (s : MetadataStorage) :
    (Validate constraintClass validationOptions object propertyName s).validationMetadatas =
      s.validationMetadatas ++
        [{ type := .CUSTOM_VALIDATION
           target := object.constructor
           propertyName := propertyName
           value1 := constraintClass
           value2 := .undefined
           validationOptions := validationOptions }] := rfl

/-- Claim C6: `NestedValidation options` applied to a field creates a
descriptor of the NESTED_VALIDATION kind for that owner type and field,
carrying the given options and no rule parameters. -/
theorem C6_nested_descriptor (validationOptions : Option ValidationOptions)
    (object : JSObject) (propertyName : String) (s : MetadataStorage) :
    NestedValidation validationOptions object propertyName s =
      { s with validationMetadatas := s.validationMetadatas ++
          [{ type := .NESTED_VALIDATION
             target := object.constructor
             propertyName := propertyName
             value1 := .undefined
             value2 := .undefined
             validationOptions := validationOptions }] } := rfl

/-- Claim C7: every embedded rule-attachment operation stores the options
structure its call site supplied as the trailing argument, unchanged
(absence included), in the created descriptor's options field. -/
theorem C7_options_stored_unchanged (c : AttachmentCall) (object : JSObject)
    (propertyName : String) (s : MetadataStorage) :
    (applyCall c object propertyName s).validationMetadatas =
      s.validationMetadatas ++ [descriptorOf c object propertyName] ∧
    (descriptorOf c object propertyName).validationOptions = c.callerOptions := by
  refine ⟨?_, rfl⟩
  rw [applyCall_eq]

/-- Claim C8: rule parameters are not validated at registration time — for
every embedded rule-attachment operation and arbitrary runtime parameter
values (absence included), registration succeeds (total, appending exactly
one descriptor) and the parameters land verbatim in the descriptor's
`value1`/`value2` slots. -/
theorem C8_params_stored_verbatim (c : AttachmentCall) (object : JSObject)
    (propertyName : String) (s : MetadataStorage) :
    (applyCall c object propertyName s).validationMetadatas =
      s.validationMetadatas ++ [descriptorOf c object propertyName] ∧
    (descriptorOf c object propertyName).value1 = c.param1 ∧
    (descriptorOf c object propertyName).value2 = c.param2 := by
  refine ⟨?_, rfl, rfl⟩
  rw [applyCall_eq]

/-- Claim C9: `IsMatch` disambiguates its optional second argument — an
options object with no third argument becomes the validation options and
leaves the modifiers slot (`value2`) undefined, while a string second
argument is stored as the modifiers in `value2` with the third argument
(possibly absent) as the validation options; in both cases `value1` is the
pattern. -/
theorem C9_isMatch_overload (pattern : JSValue) (o : ValidationOptions)
    (m : String) (t : Option ValidationOptions) (object : JSObject)
    (propertyName : String) (s : MetadataStorage) :
    (IsMatch pattern (.opts o) none object propertyName s).validationMetadatas =
      s.validationMetadatas ++
        [{ type := .IS_MATCH
           target := object.constructor
           propertyName := propertyName
           value1 := pattern
           value2 := .undefined
           validationOptions := some o }] ∧
    (IsMatch pattern (.str m) t object propertyName s).validationMetadatas =
      s.validationMetadatas ++
        [{ type := .IS_MATCH
           target := object.constructor
           propertyName := propertyName
           value1 := pattern
           value2 := .str m
           validationOptions := t }] := by
  constructor
  · rfl
  · exact congrArg MetadataStorage.validationMetadatas
      (applyCall_eq (.isMatch pattern (.str m) t) object propertyName s)

/-- Claim C10: `ValidatorConstraint`'s name parameter is optional — with no
explicit name the registration still succeeds, appending a catalog entry
whose name is absent. -/
theorem C10_unnamed_constraint (target : Nat) (s : MetadataStorage) :
    ValidatorConstraint none target s =
      .ok { s with constraintMetadatas :=
              s.constraintMetadatas ++ [{ target := target, name := none }] } := rfl

end ClassValidator
